import Mathlib

/-!
Verification of the GitSphere backend token lifecycle and aggregation layer.
The definitions below are a shallow embedding of the Python sources:
timestamps are integers counting seconds, Python floats are rationals,
fallible calls return Except or Option, and the remote platform is an
oracle function passed explicitly.
-/

namespace GitSphere

/-! ### Python rounding

Python round(x, n) rounds half to even.  We model floats as rationals and
round half to even exactly. -/

/-- Round a rational to the nearest integer, half to even (Python round). -/
def pyRound (q : ℚ) : ℤ :=
  if q - (⌊q⌋ : ℚ) < 1/2 then ⌊q⌋
  else if 1/2 < q - (⌊q⌋ : ℚ) then ⌊q⌋ + 1
  else if 2 ∣ ⌊q⌋ then ⌊q⌋ else ⌊q⌋ + 1

/-- Python round(x, 2). -/
def round2 (q : ℚ) : ℚ := (pyRound (q * 100) : ℚ) / 100

/-- Python round(x, 3). -/
def round3 (q : ℚ) : ℚ := (pyRound (q * 1000) : ℚ) / 1000

theorem pyRound_nonneg {q : ℚ} (h : 0 ≤ q) : 0 ≤ pyRound q := by
  unfold pyRound
  have hf : (0 : ℤ) ≤ ⌊q⌋ := by positivity
  split_ifs <;> omega

theorem pyRound_le_int {q : ℚ} {n : ℤ} (h : q ≤ (n : ℚ)) : pyRound q ≤ n := by
  unfold pyRound
  have hf : ⌊q⌋ ≤ n := by
    have := Int.floor_le_floor h
    simpa using this
  by_cases h1 : q - (⌊q⌋ : ℚ) < 1/2
  · simp only [h1, if_true]
    exact hf
  · have hlt : (⌊q⌋ : ℚ) < q := by
      have h2 : (1 : ℚ)/2 ≤ q - (⌊q⌋ : ℚ) := le_of_not_lt h1
      linarith
    have hfn : ⌊q⌋ < n := by
      by_contra hcon
      have hle : n ≤ ⌊q⌋ := by omega
      have : (n : ℚ) ≤ (⌊q⌋ : ℚ) := by exact_mod_cast hle
      linarith
    simp only [h1, if_false]
    split_ifs <;> omega

theorem round2_nonneg {q : ℚ} (h : 0 ≤ q) : 0 ≤ round2 q := by
  unfold round2
  have : (0 : ℤ) ≤ pyRound (q * 100) := pyRound_nonneg (by positivity)
  have h100 : (0 : ℚ) ≤ (pyRound (q * 100) : ℚ) := by exact_mod_cast this
  positivity

theorem round3_nonneg {q : ℚ} (h : 0 ≤ q) : 0 ≤ round3 q := by
  unfold round3
  have : (0 : ℤ) ≤ pyRound (q * 1000) := pyRound_nonneg (by positivity)
  have h1000 : (0 : ℚ) ≤ (pyRound (q * 1000) : ℚ) := by exact_mod_cast this
  positivity

theorem round2_le_int {q : ℚ} {n : ℤ} (h : q ≤ (n : ℚ)) : round2 q ≤ (n : ℚ) := by
  unfold round2
  have h1 : q * 100 ≤ ((n * 100 : ℤ) : ℚ) := by push_cast; linarith
  have h2 : pyRound (q * 100) ≤ n * 100 := pyRound_le_int h1
  have h3 : (pyRound (q * 100) : ℚ) ≤ ((n * 100 : ℤ) : ℚ) := by exact_mod_cast h2
  push_cast at h3
  linarith

/-! ### Token payloads and the Token Codec

A JWT payload as built by main.py and jwt_middleware.py.  The scopes
field defaults to the empty list when absent, matching
old_payload.get with default, so it is modelled as a plain list. -/

structure Payload where
  access_token : Option String
  scopes : List String
  user_id : Option String
  iat : Option Int
  exp : Option Int
  type : String
  refreshed_at : Option Int
deriving DecidableEq

/-- Modelled from the spec: the Token Codec (PyJWT, external to src/)
produces a signed encoding of a payload under a shared secret and
algorithm; decoding under the same secret and algorithm recovers the
payload, optionally failing when the expiry lies in the past. -/
structure SignedToken where
  signed_payload : Payload
  signed_secret : String
  signed_alg : String
deriving DecidableEq

inductive DecodeError where
  | malformed
  | expired
deriving DecidableEq

/-- Modelled from the spec: jwt.encode signs the payload with the secret. -/
def encode (payload : Payload) (secret : String) (alg : String) : SignedToken :=
  { signed_payload := payload, signed_secret := secret, signed_alg := alg }

/-- Modelled from the spec: jwt.decode verifies the signature, and checks
the exp field against now only when verify_exp is set. -/
def decode (t : SignedToken) (secret : String) (alg : String)
    (verify_exp : Bool) (now : Int) : Except DecodeError Payload :=
  if t.signed_secret = secret ∧ t.signed_alg = alg then
    if verify_exp then
      match t.signed_payload.exp with
      | some e => if e < now then .error .expired else .ok t.signed_payload
      | none => .ok t.signed_payload
    else .ok t.signed_payload
  else .error .malformed

/-! ### Auth Gate and Refresh Protocol (jwt_middleware.py) -/

/-- Result of validate_and_refresh_token: the status field of the Python
dict together with the data carried for each status. -/
inductive TokenResult where
  | valid (payload : Payload)
  | refreshed (payload : Payload) (new_token : SignedToken)
  | invalid (message : String)
deriving DecidableEq

/-- JWTAuthMiddleware.refresh_token: re-validate the embedded upstream
token through the oracle (validate_github_token) and mint a replacement
payload with a 24 hour window.  86400 is 24 hours in seconds. -/
def refresh_token (oracle : String → Bool) (now : Int)
    (secret : String) (alg : String) (old_payload : Payload) : TokenResult :=
  match old_payload.access_token with
  | none => .invalid "No GitHub token found in JWT"
  | some github_token =>
    if oracle github_token then
      let new_payload : Payload :=
        { access_token := some github_token
          scopes := old_payload.scopes
          user_id := old_payload.user_id
          iat := some now
          exp := some (now + 86400)
          type := "github_token"
          refreshed_at := some now }
      .refreshed new_payload (encode new_payload secret alg)
    else .invalid "GitHub token is no longer valid"

/-- JWTAuthMiddleware.validate_and_refresh_token.  The first decode runs
with verify_exp off, so the expired branch of the Python try/except is
reached only through the second, strict decode. -/
def validate_and_refresh_token (oracle : String → Bool) (now : Int)
    (secret : String) (alg : String) (threshold_minutes : Int)
    (token : SignedToken) : TokenResult :=
  match decode token secret alg false now with
  | .error _ => .invalid "Invalid token"
  | .ok payload =>
    match payload.exp with
    | none => .invalid "Token missing expiration"
    | some exp_timestamp =>
      if exp_timestamp < now then
        refresh_token oracle now secret alg payload
      else if exp_timestamp - now < threshold_minutes * 60 then
        refresh_token oracle now secret alg payload
      else
        match decode token secret alg true now with
        | .ok _ => .valid payload
        | .error .expired => refresh_token oracle now secret alg payload
        | .error .malformed => .invalid "Invalid token"

/-- Outcome of JWTAuthMiddleware.dispatch after the token check: either a
401 with a structured error body, or the handler response decorated with
the refresh headers when a refresh happened. -/
structure GateResponse where
  status_code : Nat
  error_body : Option String
  x_new_token : Option SignedToken
  x_token_refreshed : Bool
deriving DecidableEq

/-- The tail of JWTAuthMiddleware.dispatch: map the token result to the
outgoing response, given the status the downstream handler would return. -/
def dispatch_auth (handler_status : Nat) (tr : TokenResult) : GateResponse :=
  match tr with
  | .invalid msg =>
    { status_code := 401, error_body := some msg
      x_new_token := none, x_token_refreshed := false }
  | .valid _ =>
    { status_code := handler_status, error_body := none
      x_new_token := none, x_token_refreshed := false }
  | .refreshed _ tok =>
    { status_code := handler_status, error_body := none
      x_new_token := some tok, x_token_refreshed := true }

/-! ### Claims C1 to C4: token lifecycle -/

/-- A concrete payload with exp one hour in the past, used to instantiate
the middleware theorems at now = 0. -/
def samplePayload : Payload :=
  { access_token := some "gho_token"
    scopes := ["repo"]
    user_id := some "42"
    iat := some (-90000)
    exp := some (-3600)
    type := "github_token"
    refreshed_at := none }

theorem refresh_token_never_valid (oracle : String → Bool) (now : Int)
    (secret alg : String) (p : Payload) :
    ∀ q, refresh_token oracle now secret alg p ≠ .valid q := by
  intro q hcon
  unfold refresh_token at hcon
  cases hacc : p.access_token with
  | none => rw [hacc] at hcon; simp at hcon
  | some g =>
    rw [hacc] at hcon
    by_cases ho : oracle g
    · simp [ho] at hcon
    · simp [ho] at hcon

theorem refresh_token_refreshed_iff (oracle : String → Bool) (now : Int)
    (secret alg : String) (p : Payload) :
    (∃ np t, refresh_token oracle now secret alg p = .refreshed np t)
      ↔ ∃ g, p.access_token = some g ∧ oracle g = true := by
  constructor
  · rintro ⟨np, t, hcon⟩
    unfold refresh_token at hcon
    cases hacc : p.access_token with
    | none => rw [hacc] at hcon; simp at hcon
    | some g =>
      rw [hacc] at hcon
      by_cases ho : oracle g
      · exact ⟨g, rfl, ho⟩
      · simp [ho] at hcon
  · rintro ⟨g, hg, ho⟩
    unfold refresh_token
    rw [hg]
    simp only [ho, if_true]
    exact ⟨_, _, rfl⟩

theorem refresh_token_invalid_of_no_valid_token (oracle : String → Bool) (now : Int)
    (secret alg : String) (p : Payload)
    (h : ¬ ∃ g, p.access_token = some g ∧ oracle g = true) :
    ∃ msg, refresh_token oracle now secret alg p = .invalid msg := by
  unfold refresh_token
  cases hacc : p.access_token with
  | none => exact ⟨_, rfl⟩
  | some g =>
    by_cases ho : oracle g
    · exact absurd ⟨g, hacc, ho⟩ h
    · simp only [Bool.not_eq_true] at ho
      simp only [ho]
      exact ⟨_, rfl⟩

theorem validate_expired_eq_refresh (oracle : String → Bool) (now : Int)
    (secret alg : String) (thr : Int) (tok : SignedToken) (payload : Payload) (e : Int)
    (hdec : decode tok secret alg false now = .ok payload)
    (hexp : payload.exp = some e) (hpast : e < now) :
    validate_and_refresh_token oracle now secret alg thr tok
      = refresh_token oracle now secret alg payload := by
  unfold validate_and_refresh_token
  rw [hdec]
  simp only [hexp, hpast, if_true]

/-- C1: for every credential whose expires_at lies in the past, the Auth
Gate never returns the valid status; it hands the payload to the Refresh
Protocol and returns refreshed iff the embedded upstream token still
validates against the remote platform, otherwise the dispatch rejects the
request with HTTP 401. -/
theorem C1_expired_gate (oracle : String → Bool) (now : Int)
    (secret alg : String) (thr : Int) (tok : SignedToken) (payload : Payload)
    (e : Int) (hs : Nat)
    (hdec : decode tok secret alg false now = .ok payload)
    (hexp : payload.exp = some e) (hpast : e < now) :
    (∀ p, validate_and_refresh_token oracle now secret alg thr tok ≠ .valid p) ∧
    validate_and_refresh_token oracle now secret alg thr tok
      = refresh_token oracle now secret alg payload ∧
    ((∃ np t, validate_and_refresh_token oracle now secret alg thr tok = .refreshed np t)
      ↔ ∃ g, payload.access_token = some g ∧ oracle g = true) ∧
    ((¬ ∃ g, payload.access_token = some g ∧ oracle g = true) →
      ∃ msg, validate_and_refresh_token oracle now secret alg thr tok = .invalid msg ∧
        (dispatch_auth hs (validate_and_refresh_token oracle now secret alg thr tok)).status_code
          = 401) := by
  have hv := validate_expired_eq_refresh oracle now secret alg thr tok payload e hdec hexp hpast
  refine ⟨?_, hv, ?_, ?_⟩
  · rw [hv]; exact refresh_token_never_valid oracle now secret alg payload
  · rw [hv]; exact refresh_token_refreshed_iff oracle now secret alg payload
  · intro h
    obtain ⟨msg, hmsg⟩ := refresh_token_invalid_of_no_valid_token oracle now secret alg payload h
    refine ⟨msg, by rw [hv, hmsg], ?_⟩
    rw [hv, hmsg]
    rfl

/-- Witness for C1 at a concrete expired credential whose upstream token
no longer validates. -/
theorem C1_expired_gate_witness :
    (∀ p, validate_and_refresh_token (fun _ => false) 0 "s" "HS256" 30
        (encode samplePayload "s" "HS256") ≠ .valid p) ∧
    validate_and_refresh_token (fun _ => false) 0 "s" "HS256" 30
        (encode samplePayload "s" "HS256")
      = refresh_token (fun _ => false) 0 "s" "HS256" samplePayload ∧
    ((∃ np t, validate_and_refresh_token (fun _ => false) 0 "s" "HS256" 30
        (encode samplePayload "s" "HS256") = .refreshed np t)
      ↔ ∃ g, samplePayload.access_token = some g ∧ (fun _ => false) g = true) ∧
    ((¬ ∃ g, samplePayload.access_token = some g ∧ (fun _ => false) g = true) →
      ∃ msg, validate_and_refresh_token (fun _ => false) 0 "s" "HS256" 30
          (encode samplePayload "s" "HS256") = .invalid msg ∧
        (dispatch_auth 200 (validate_and_refresh_token (fun _ => false) 0 "s" "HS256" 30
          (encode samplePayload "s" "HS256"))).status_code = 401) :=
  C1_expired_gate (fun _ => false) 0 "s" "HS256" 30
    (encode samplePayload "s" "HS256") samplePayload (-3600) 200
    (by rfl) (by rfl) (by decide)

/-- C2 counterexample: with a validating upstream token the Refresh
Protocol mints a credential whose kind marker type is github_token, the
same marker the initial issuance uses, not a distinct refreshed kind. -/
theorem C2_kind_counterexample :
    ∃ np t, refresh_token (fun _ => true) 0 "s" "HS256" samplePayload = .refreshed np t ∧
      np.type = "github_token" ∧ np.type ≠ "refreshed" := by
  refine ⟨_, _, rfl, rfl, by decide⟩

/-- C2 (amended): for every decoded payload whose upstream token
validates, the Refresh Protocol mints a credential carrying the same
upstream token and scopes, the unchanged kind marker type github_token
with refreshed_at = now marking the refresh, a fresh issued_at, and an
expires_at fixed 24 hours after mint time, hence strictly greater than
now; refreshing the minted credential again yields the same output
shape. -/
theorem C2_refresh_mint (oracle : String → Bool) (now now2 : Int)
    (secret alg : String) (p : Payload) (g : String)
    (hg : p.access_token = some g) (hv : oracle g = true) :
    ∃ np t, refresh_token oracle now secret alg p = .refreshed np t ∧
      np.access_token = p.access_token ∧ np.scopes = p.scopes ∧
      np.type = "github_token" ∧ np.iat = some now ∧
      np.exp = some (now + 86400) ∧ now < now + 86400 ∧
      np.refreshed_at = some now ∧ t = encode np secret alg ∧
      ∃ np2 t2, refresh_token oracle now2 secret alg np = .refreshed np2 t2 ∧
        np2.access_token = p.access_token ∧ np2.scopes = p.scopes ∧
        np2.type = "github_token" ∧ np2.exp = some (now2 + 86400) ∧
        np2.refreshed_at = some now2 ∧ now2 < now2 + 86400 := by
  have step : ∀ (t0 : Int) (q : Payload), q.access_token = some g →
      refresh_token oracle t0 secret alg q = .refreshed
        { access_token := some g, scopes := q.scopes, user_id := q.user_id
          iat := some t0, exp := some (t0 + 86400), type := "github_token"
          refreshed_at := some t0 }
        (encode
          { access_token := some g, scopes := q.scopes, user_id := q.user_id
            iat := some t0, exp := some (t0 + 86400), type := "github_token"
            refreshed_at := some t0 } secret alg) := by
    intro t0 q hq
    unfold refresh_token
    rw [hq]
    simp only [hv, if_true]
  refine ⟨_, _, step now p hg, by rw [hg], rfl, rfl, rfl, rfl, by omega, rfl, rfl,
    _, _, step now2 _ rfl, by rw [hg], rfl, rfl, rfl, rfl, by omega⟩

/-- Witness for C2 at a concrete near-expiry payload. -/
theorem C2_refresh_mint_witness :
    ∃ np t, refresh_token (fun _ => true) 0 "s" "HS256" samplePayload = .refreshed np t ∧
      np.access_token = samplePayload.access_token ∧ np.scopes = samplePayload.scopes ∧
      np.type = "github_token" ∧ np.iat = some 0 ∧
      np.exp = some (0 + 86400) ∧ (0 : Int) < 0 + 86400 ∧
      np.refreshed_at = some 0 ∧ t = encode np "s" "HS256" ∧
      ∃ np2 t2, refresh_token (fun _ => true) 5 "s" "HS256" np = .refreshed np2 t2 ∧
        np2.access_token = samplePayload.access_token ∧ np2.scopes = samplePayload.scopes ∧
        np2.type = "github_token" ∧ np2.exp = some (5 + 86400) ∧
        np2.refreshed_at = some 5 ∧ (5 : Int) < 5 + 86400 :=
  C2_refresh_mint (fun _ => true) 0 5 "s" "HS256" samplePayload "gho_token" (by rfl) (by rfl)

/-- C3 counterexample: for a credential with exp one hour in the past
whose upstream check fails, the gate rejects with HTTP 401 but the body
message is the refresh failure message, not the token expired message
the claim states. -/
theorem C3_message_counterexample :
    (dispatch_auth 200 (validate_and_refresh_token (fun _ => false) 0 "s" "HS256" 30
        (encode samplePayload "s" "HS256"))).status_code = 401 ∧
    (dispatch_auth 200 (validate_and_refresh_token (fun _ => false) 0 "s" "HS256" 30
        (encode samplePayload "s" "HS256"))).error_body
      = some "GitHub token is no longer valid" ∧
    (dispatch_auth 200 (validate_and_refresh_token (fun _ => false) 0 "s" "HS256" 30
        (encode samplePayload "s" "HS256"))).error_body
      ≠ some "Token expired and cannot be refreshed" := by
  refine ⟨by decide, by decide, by decide⟩

/-- C3 (amended): for a credential with exp one hour in the past whose
upstream-token validation fails, the Auth Gate responds HTTP 401 with the
error body GitHub token is no longer valid. -/
theorem C3_expired_refresh_failure (oracle : String → Bool) (now : Int)
    (secret alg : String) (thr : Int) (tok : SignedToken) (payload : Payload)
    (g : String) (hs : Nat)
    (hdec : decode tok secret alg false now = .ok payload)
    (hexp : payload.exp = some (now - 3600))
    (hg : payload.access_token = some g) (hv : oracle g = false) :
    dispatch_auth hs (validate_and_refresh_token oracle now secret alg thr tok)
      = { status_code := 401
          error_body := some "GitHub token is no longer valid"
          x_new_token := none, x_token_refreshed := false } := by
  have hval := validate_expired_eq_refresh oracle now secret alg thr tok payload
    (now - 3600) hdec hexp (by omega)
  rw [hval]
  unfold refresh_token
  rw [hg]
  simp only [hv]
  rfl

/-- Witness for C3 at a concrete credential and a failing upstream
check. -/
theorem C3_expired_refresh_failure_witness :
    dispatch_auth 200 (validate_and_refresh_token (fun _ => false) 0 "s" "HS256" 30
        (encode samplePayload "s" "HS256"))
      = { status_code := 401
          error_body := some "GitHub token is no longer valid"
          x_new_token := none, x_token_refreshed := false } :=
  C3_expired_refresh_failure (fun _ => false) 0 "s" "HS256" 30
    (encode samplePayload "s" "HS256") samplePayload "gho_token" 200
    (by rfl) (by rfl) (by rfl) (by rfl)

/-- C4: decoding the encoding of a payload with expiry verification
disabled reproduces every field of the payload. -/
theorem C4_codec_round_trip (p : Payload) (secret alg : String) (now : Int) :
    decode (encode p secret alg) secret alg false now = .ok p := by
  unfold decode encode
  simp

/-! ### Profile analyzer (profile_analyzer_service.py) -/

structure ProfileRepository where
  stargazers_count : Nat
  forks_count : Nat
  language : Option String
deriving DecidableEq

structure GitHubProfile where
  followers : Nat
  following : Nat
  created_at : Int
deriving DecidableEq

structure ProfileStats where
  total_stars : Nat
  total_forks : Nat
  total_repos : Nat
  avg_stars_per_repo : ℚ
  follower_to_following_ratio : ℚ
  account_age_days : Int
deriving DecidableEq

structure LanguageStats where
  languages : List (String × Nat)
  primary_language : Option String
  language_diversity_score : ℚ
deriving DecidableEq

structure ProfileActivityMetrics where
  total_commits : Nat
  recent_commits : Nat
  contribution_streak : Nat
  active_days : Nat
deriving DecidableEq

/-- One entry of the events feed: the type tag, the length of the
embedded commit list of a push event, and the parsed creation time, none
standing for a date parse failure. -/
structure GhEvent where
  type : String
  commits : Nat
  created_at : Option Int
deriving DecidableEq

/-- ProfileAnalyzerService.calculate_profile_stats. -/
def calculate_profile_stats (profile : GitHubProfile)
    (repositories : List ProfileRepository) (now : Int) : ProfileStats :=
  { total_stars := (repositories.map (·.stargazers_count)).sum
    total_forks := (repositories.map (·.forks_count)).sum
    total_repos := repositories.length
    avg_stars_per_repo := round2 (if 0 < repositories.length then
      ((repositories.map (·.stargazers_count)).sum : ℚ) / (repositories.length : ℚ) else 0)
    follower_to_following_ratio :=
      round2 ((profile.followers : ℚ) / (max profile.following 1 : ℚ))
    account_age_days := Int.fdiv (now - profile.created_at) 86400 }

/-- One step of the language_count dictionary: increment the counter of a
key, appending the key with count one when it is new (Python dict
insertion order). -/
def bump : List (String × Nat) → String → List (String × Nat)
  | [], k => [(k, 1)]
  | (k', n) :: rest, k =>
    if k' = k then (k', n + 1) :: rest else (k', n) :: bump rest k

/-- The language_count dictionary of calculate_language_stats: fold over
the repositories, counting non-null languages. -/
def language_count (repositories : List ProfileRepository) : List (String × Nat) :=
  repositories.foldl
    (fun m r => match r.language with
      | some l => bump m l
      | none => m) []

/-- Python max with key over dict iteration order: the first key whose
count is maximal. -/
def argmax_key : List (String × Nat) → Option String
  | [] => none
  | kv :: rest =>
    some ((rest.foldl (fun best x => if best.2 < x.2 then x else best) kv).1)

/-- ProfileAnalyzerService.calculate_language_stats. -/
def calculate_language_stats (repositories : List ProfileRepository) : LanguageStats :=
  { languages := language_count repositories
    primary_language := argmax_key (language_count repositories)
    language_diversity_score := round3 (((language_count repositories).length : ℚ)
      / (max (repositories.filter (fun r => r.language.isSome)).length 1 : ℚ)) }

/-- The recency test of calculate_activity_metrics: an event parses and
lies within the last 30 days. -/
def recent_event (now : Int) (e : GhEvent) : Bool :=
  match e.created_at with
  | some d => decide (Int.fdiv (now - d) 86400 ≤ 30)
  | none => false

/-- ProfileAnalyzerService.calculate_activity_metrics: commit counts from
push events, a 30 day recency window, and distinct UTC dates among recent
events. -/
def profile_calculate_activity_metrics (events : List GhEvent) (now : Int) :
    ProfileActivityMetrics :=
  let recent_events := events.filter (recent_event now)
  let event_dates :=
    ((recent_events.filterMap (·.created_at)).map (fun d => Int.fdiv d 86400)).toFinset
  { total_commits := (((events.filter (fun e => e.type == "PushEvent")).map (·.commits))).sum
    recent_commits :=
      (((recent_events.filter (fun e => e.type == "PushEvent")).map (·.commits))).sum
    contribution_streak := event_dates.card
    active_days := event_dates.card }

/-- ProfileAnalyzerService.get_top_repositories: stable descending sort
by star count, first five. -/
def get_top_repositories (repositories : List ProfileRepository)
    (limit : Nat := 5) : List ProfileRepository :=
  (repositories.mergeSort
    (fun a b => decide (b.stargazers_count ≤ a.stargazers_count))).take limit

structure ProfileAnalysis where
  profile : GitHubProfile
  repositories : List ProfileRepository
  stats : ProfileStats
  language_stats : LanguageStats
  activity_metrics : ProfileActivityMetrics
  top_repositories : List ProfileRepository
deriving DecidableEq

/-- ProfileAnalyzerService.analyze_profile after the three fetches have
resolved: assemble the analysis record from the fetched data. -/
def analyze_profile (profile : GitHubProfile) (repositories : List ProfileRepository)
    (events : List GhEvent) (now : Int) : ProfileAnalysis :=
  { profile := profile
    repositories := repositories
    stats := calculate_profile_stats profile repositories now
    language_stats := calculate_language_stats repositories
    activity_metrics := profile_calculate_activity_metrics events now
    top_repositories := get_top_repositories repositories }

/-! ### Permutation invariance of the derived profile statistics -/

theorem calculate_profile_stats_perm (profile : GitHubProfile) (now : Int)
    {rs1 rs2 : List ProfileRepository} (h : rs1.Perm rs2) :
    calculate_profile_stats profile rs1 now = calculate_profile_stats profile rs2 now := by
  have hstars : (rs1.map (·.stargazers_count)).sum = (rs2.map (·.stargazers_count)).sum :=
    (h.map _).sum_eq
  have hstarsQ : (rs1.map (fun x => (x.stargazers_count : ℚ))).sum
      = (rs2.map (fun x => (x.stargazers_count : ℚ))).sum :=
    (h.map _).sum_eq
  have hforks : (rs1.map (·.forks_count)).sum = (rs2.map (·.forks_count)).sum :=
    (h.map _).sum_eq
  have hlen : rs1.length = rs2.length := h.length_eq
  unfold calculate_profile_stats
  rw [hstars, hstarsQ, hforks, hlen]

/-- Append a key to a list of keys when it is not yet present. -/
def insert_new (l : List String) (k : String) : List String :=
  if k ∈ l then l else l ++ [k]

theorem bump_keys (m : List (String × Nat)) (k : String) :
    (bump m k).map Prod.fst = insert_new (m.map Prod.fst) k := by
  induction m with
  | nil => simp [bump, insert_new]
  | cons kv rest ih =>
    obtain ⟨k', n⟩ := kv
    by_cases hk : k' = k
    · subst hk
      simp [bump, insert_new]
    · by_cases hmem : k ∈ rest.map Prod.fst
      · simp [bump, hk, ih, insert_new, hmem, Ne.symm hk]
      · simp [bump, hk, ih, insert_new, hmem, Ne.symm hk]

theorem language_count_keys (rs : List ProfileRepository) :
    ∀ m : List (String × Nat),
      ((rs.foldl (fun m r => match r.language with
        | some l => bump m l
        | none => m) m).map Prod.fst)
        = (rs.filterMap (·.language)).foldl insert_new (m.map Prod.fst) := by
  induction rs with
  | nil => intro m; simp
  | cons r rest ih =>
    intro m
    cases hl : r.language with
    | none => simp [List.foldl_cons, hl, ih]
    | some l => simp [List.foldl_cons, hl, ih, bump_keys]

theorem foldl_insert_new_nodup (ls : List String) :
    ∀ acc : List String, acc.Nodup → (ls.foldl insert_new acc).Nodup := by
  induction ls with
  | nil => intro acc h; exact h
  | cons k rest ih =>
    intro acc h
    refine ih _ ?_
    unfold insert_new
    split
    · exact h
    · rename_i hk
      simp [List.nodup_append, h, hk]

theorem foldl_insert_new_toFinset (ls : List String) :
    ∀ acc : List String, (ls.foldl insert_new acc).toFinset = acc.toFinset ∪ ls.toFinset := by
  induction ls with
  | nil => intro acc; simp
  | cons k rest ih =>
    intro acc
    rw [List.foldl_cons, ih]
    unfold insert_new
    split
    · rename_i hk
      ext x
      simp only [Finset.mem_union, List.mem_toFinset, List.toFinset_cons, Finset.mem_insert]
      constructor
      · rintro (h | h)
        · exact Or.inl h
        · exact Or.inr (Or.inr h)
      · rintro (h | h | h)
        · exact Or.inl h
        · exact Or.inl (by rw [h]; exact hk)
        · exact Or.inr h
    · ext x
      simp only [Finset.mem_union, List.mem_toFinset, List.toFinset_cons, Finset.mem_insert,
        List.mem_append, List.mem_singleton, List.mem_cons, List.not_mem_nil, or_false]
      tauto

theorem language_count_keys_nil (rs : List ProfileRepository) :
    (language_count rs).map Prod.fst = (rs.filterMap (·.language)).foldl insert_new [] := by
  have h := language_count_keys rs []
  simpa [language_count] using h

theorem language_count_length (rs : List ProfileRepository) :
    (language_count rs).length = (rs.filterMap (·.language)).toFinset.card := by
  have hkeys := language_count_keys_nil rs
  have hnodup : ((language_count rs).map Prod.fst).Nodup := by
    rw [hkeys]
    exact foldl_insert_new_nodup _ [] (by simp)
  calc (language_count rs).length
      = ((language_count rs).map Prod.fst).length := by simp
    _ = ((language_count rs).map Prod.fst).toFinset.card :=
      (List.toFinset_card_of_nodup hnodup).symm
    _ = ((rs.filterMap (·.language)).foldl insert_new []).toFinset.card := by
      rw [hkeys]
    _ = (rs.filterMap (·.language)).toFinset.card := by
      rw [foldl_insert_new_toFinset]
      simp

theorem language_count_length_perm {rs1 rs2 : List ProfileRepository} (h : rs1.Perm rs2) :
    (language_count rs1).length = (language_count rs2).length := by
  have htf : (rs1.filterMap (·.language)).toFinset = (rs2.filterMap (·.language)).toFinset := by
    ext x
    simp [List.mem_toFinset, (h.filterMap (·.language)).mem_iff]
  rw [language_count_length, language_count_length, htf]

theorem language_stats_perm_parts {rs1 rs2 : List ProfileRepository} (h : rs1.Perm rs2) :
    (calculate_language_stats rs1).languages.length
      = (calculate_language_stats rs2).languages.length ∧
    (calculate_language_stats rs1).language_diversity_score
      = (calculate_language_stats rs2).language_diversity_score := by
  have hlen := language_count_length_perm h
  have hfil : (rs1.filter (fun r => r.language.isSome)).length
      = (rs2.filter (fun r => r.language.isSome)).length := (h.filter _).length_eq
  constructor
  · simpa [calculate_language_stats] using hlen
  · simp [calculate_language_stats, hlen, hfil]

theorem top_repositories_length_perm {rs1 rs2 : List ProfileRepository} (h : rs1.Perm rs2) :
    (get_top_repositories rs1).length = (get_top_repositories rs2).length := by
  simp [get_top_repositories, List.length_take, List.length_mergeSort, h.length_eq]

/-! ### Battle scoring (battle_service.py) -/

structure BattleBreakdown where
  repos : Nat
  stars : Nat
  followers : Nat
  languages : Nat
  recent_commits : Nat
  account_age : Int
deriving DecidableEq

structure BattleScore where
  total : ℚ
  activity : ℚ
  quality : ℚ
  impact : ℚ
  consistency : ℚ
  breakdown : BattleBreakdown
deriving DecidableEq

/-- The four sub-terms of BattleService.calculate_battle_score, in the
order activity, quality, impact, consistency.  The trailing else branch
is the comprehensive profile, as in the Python if chain. -/
def battle_subterms (analysis : ProfileAnalysis) (battle_type : String) : ℚ × ℚ × ℚ × ℚ :=
  if battle_type = "technical" then
    (min ((analysis.stats.total_repos : ℚ) / 30 * 20) 20,
     min ((analysis.stats.total_stars : ℚ) / 200 * 40) 40,
     min (analysis.stats.avg_stars_per_repo * 10) 10,
     min (analysis.language_stats.language_diversity_score * 100 * 30) 30)
  else if battle_type = "social" then
    (min ((analysis.activity_metrics.recent_commits : ℚ) / 100 * 20) 20,
     min (analysis.stats.follower_to_following_ratio * 20) 20,
     min ((analysis.profile.followers : ℚ) / 100 * 50) 50,
     min ((analysis.top_repositories.length : ℚ) * 2) 10)
  else if battle_type = "activity" then
    (min ((analysis.activity_metrics.recent_commits : ℚ) / 50 * 40) 40,
     min ((analysis.stats.total_repos : ℚ) / 20 * 20) 20,
     min ((analysis.activity_metrics.total_commits : ℚ) / 500 * 10) 10,
     min ((analysis.activity_metrics.active_days : ℚ) / 30 * 30) 30)
  else
    (min ((analysis.stats.total_repos : ℚ) / 20 * 25) 25,
     min ((analysis.stats.total_stars : ℚ) / 100 * 30) 30,
     min ((analysis.profile.followers : ℚ) / 50 * 25) 25,
     min (analysis.language_stats.language_diversity_score * 100 * 20) 20)

/-- BattleService.calculate_battle_score: round the four sub-terms and
their sum, and record the breakdown counters. -/
def calculate_battle_score (analysis : ProfileAnalysis) (battle_type : String) : BattleScore :=
  { total := round2 ((battle_subterms analysis battle_type).1
      + (battle_subterms analysis battle_type).2.1
      + (battle_subterms analysis battle_type).2.2.1
      + (battle_subterms analysis battle_type).2.2.2)
    activity := round2 (battle_subterms analysis battle_type).1
    quality := round2 (battle_subterms analysis battle_type).2.1
    impact := round2 (battle_subterms analysis battle_type).2.2.1
    consistency := round2 (battle_subterms analysis battle_type).2.2.2
    breakdown :=
      { repos := analysis.stats.total_repos
        stars := analysis.stats.total_stars
        followers := analysis.profile.followers
        languages := analysis.language_stats.languages.length
        recent_commits := analysis.activity_metrics.recent_commits
        account_age := analysis.stats.account_age_days } }

theorem avg_stars_nonneg (profile : GitHubProfile) (rs : List ProfileRepository) (now : Int) :
    0 ≤ (calculate_profile_stats profile rs now).avg_stars_per_repo := by
  unfold calculate_profile_stats
  refine round2_nonneg ?_
  split
  · have hs : 0 ≤ (rs.map (fun x => (x.stargazers_count : ℚ))).sum := by
      apply List.sum_nonneg
      intro x hx
      rcases List.mem_map.mp hx with ⟨r, _, rfl⟩
      positivity
    exact div_nonneg hs (by positivity)
  · exact le_refl 0

theorem ratio_nonneg (profile : GitHubProfile) (rs : List ProfileRepository) (now : Int) :
    0 ≤ (calculate_profile_stats profile rs now).follower_to_following_ratio := by
  unfold calculate_profile_stats
  refine round2_nonneg ?_
  have h1 : (1 : ℚ) ≤ (max profile.following 1 : Nat) := by
    have : 1 ≤ max profile.following 1 := Nat.le_max_right _ _
    exact_mod_cast this
  positivity

theorem diversity_nonneg (rs : List ProfileRepository) :
    0 ≤ (calculate_language_stats rs).language_diversity_score := by
  unfold calculate_language_stats
  refine round3_nonneg ?_
  have h1 : (1 : ℚ) ≤ (max (rs.filter (fun r => r.language.isSome)).length 1 : Nat) := by
    have : 1 ≤ max (rs.filter (fun r => r.language.isSome)).length 1 := Nat.le_max_right _ _
    exact_mod_cast this
  positivity

theorem battle_subterms_bounds (A : ProfileAnalysis)
    (h1 : 0 ≤ A.stats.avg_stars_per_repo)
    (h2 : 0 ≤ A.stats.follower_to_following_ratio)
    (h3 : 0 ≤ A.language_stats.language_diversity_score) (bt : String) :
    ∃ capA capQ capI capC : ℚ,
      capA + capQ + capI + capC = 100 ∧
      0 ≤ (battle_subterms A bt).1 ∧ (battle_subterms A bt).1 ≤ capA ∧
      0 ≤ (battle_subterms A bt).2.1 ∧ (battle_subterms A bt).2.1 ≤ capQ ∧
      0 ≤ (battle_subterms A bt).2.2.1 ∧ (battle_subterms A bt).2.2.1 ≤ capI ∧
      0 ≤ (battle_subterms A bt).2.2.2 ∧ (battle_subterms A bt).2.2.2 ≤ capC := by
  unfold battle_subterms
  split_ifs
  · exact ⟨20, 40, 10, 30, by norm_num,
      le_min (by positivity) (by norm_num), min_le_right _ _,
      le_min (by positivity) (by norm_num), min_le_right _ _,
      le_min (by nlinarith) (by norm_num), min_le_right _ _,
      le_min (by nlinarith) (by norm_num), min_le_right _ _⟩
  · exact ⟨20, 20, 50, 10, by norm_num,
      le_min (by positivity) (by norm_num), min_le_right _ _,
      le_min (by nlinarith) (by norm_num), min_le_right _ _,
      le_min (by positivity) (by norm_num), min_le_right _ _,
      le_min (by positivity) (by norm_num), min_le_right _ _⟩
  · exact ⟨40, 20, 10, 30, by norm_num,
      le_min (by positivity) (by norm_num), min_le_right _ _,
      le_min (by positivity) (by norm_num), min_le_right _ _,
      le_min (by positivity) (by norm_num), min_le_right _ _,
      le_min (by positivity) (by norm_num), min_le_right _ _⟩
  · exact ⟨25, 30, 25, 20, by norm_num,
      le_min (by positivity) (by norm_num), min_le_right _ _,
      le_min (by positivity) (by norm_num), min_le_right _ _,
      le_min (by positivity) (by norm_num), min_le_right _ _,
      le_min (by nlinarith) (by norm_num), min_le_right _ _⟩

theorem battle_subterms_congr (A B : ProfileAnalysis) (bt : String)
    (hs : A.stats = B.stats) (hp : A.profile = B.profile)
    (ha : A.activity_metrics = B.activity_metrics)
    (hd : A.language_stats.language_diversity_score
      = B.language_stats.language_diversity_score)
    (ht : A.top_repositories.length = B.top_repositories.length) :
    battle_subterms A bt = battle_subterms B bt := by
  unfold battle_subterms
  rw [hs, hp, ha, hd, ht]

theorem calculate_battle_score_congr (A B : ProfileAnalysis) (bt : String)
    (hs : A.stats = B.stats) (hp : A.profile = B.profile)
    (ha : A.activity_metrics = B.activity_metrics)
    (hd : A.language_stats.language_diversity_score
      = B.language_stats.language_diversity_score)
    (hl : A.language_stats.languages.length = B.language_stats.languages.length)
    (ht : A.top_repositories.length = B.top_repositories.length) :
    calculate_battle_score A bt = calculate_battle_score B bt := by
  unfold calculate_battle_score
  rw [battle_subterms_congr A B bt hs hp ha hd ht, hs, hp, ha, hl]

/-- C6: for every analysis record built by the profile analyzer and every
scoring profile, the battle score total is the rounded sum of exactly
four non-negative sub-terms, each capped at its fixed maximum with the
caps summing to 100, the total never exceeds 100, and the whole battle
score is invariant under any reordering of the input repository list. -/
theorem C6_battle_score (profile : GitHubProfile) (rs1 rs2 : List ProfileRepository)
    (events : List GhEvent) (now : Int) (bt : String) (hperm : rs1.Perm rs2) :
    (∃ a q i c capA capQ capI capC : ℚ,
      capA + capQ + capI + capC = 100 ∧
      0 ≤ a ∧ a ≤ capA ∧ 0 ≤ q ∧ q ≤ capQ ∧
      0 ≤ i ∧ i ≤ capI ∧ 0 ≤ c ∧ c ≤ capC ∧
      (calculate_battle_score (analyze_profile profile rs1 events now) bt).total
        = round2 (a + q + i + c) ∧
      (calculate_battle_score (analyze_profile profile rs1 events now) bt).activity
        = round2 a ∧
      (calculate_battle_score (analyze_profile profile rs1 events now) bt).quality
        = round2 q ∧
      (calculate_battle_score (analyze_profile profile rs1 events now) bt).impact
        = round2 i ∧
      (calculate_battle_score (analyze_profile profile rs1 events now) bt).consistency
        = round2 c ∧
      (calculate_battle_score (analyze_profile profile rs1 events now) bt).total ≤ 100) ∧
    calculate_battle_score (analyze_profile profile rs1 events now) bt
      = calculate_battle_score (analyze_profile profile rs2 events now) bt := by
  constructor
  · obtain ⟨capA, capQ, capI, capC, hsum, ha0, haA, hq0, hqQ, hi0, hiI, hc0, hcC⟩ :=
      battle_subterms_bounds (analyze_profile profile rs1 events now)
        (avg_stars_nonneg profile rs1 now) (ratio_nonneg profile rs1 now)
        (diversity_nonneg rs1) bt
    refine ⟨_, _, _, _, capA, capQ, capI, capC, hsum, ha0, haA, hq0, hqQ, hi0, hiI,
      hc0, hcC, rfl, rfl, rfl, rfl, rfl, ?_⟩
    have hb : (battle_subterms (analyze_profile profile rs1 events now) bt).1
        + (battle_subterms (analyze_profile profile rs1 events now) bt).2.1
        + (battle_subterms (analyze_profile profile rs1 events now) bt).2.2.1
        + (battle_subterms (analyze_profile profile rs1 events now) bt).2.2.2
        ≤ ((100 : ℤ) : ℚ) := by
      push_cast
      linarith
    have := round2_le_int hb
    calc (calculate_battle_score (analyze_profile profile rs1 events now) bt).total
        = round2 ((battle_subterms (analyze_profile profile rs1 events now) bt).1
          + (battle_subterms (analyze_profile profile rs1 events now) bt).2.1
          + (battle_subterms (analyze_profile profile rs1 events now) bt).2.2.1
          + (battle_subterms (analyze_profile profile rs1 events now) bt).2.2.2) := rfl
      _ ≤ ((100 : ℤ) : ℚ) := this
      _ = 100 := by norm_num
  · refine calculate_battle_score_congr _ _ bt ?_ ?_ ?_ ?_ ?_ ?_
    · exact calculate_profile_stats_perm profile now hperm
    · rfl
    · rfl
    · exact (language_stats_perm_parts hperm).2
    · exact (language_stats_perm_parts hperm).1
    · exact top_repositories_length_perm hperm

/-- Witness for C6 at a two-element repository list and its swap. -/
theorem C6_battle_score_witness :
    (∃ a q i c capA capQ capI capC : ℚ,
      capA + capQ + capI + capC = 100 ∧
      0 ≤ a ∧ a ≤ capA ∧ 0 ≤ q ∧ q ≤ capQ ∧
      0 ≤ i ∧ i ≤ capI ∧ 0 ≤ c ∧ c ≤ capC ∧
      (calculate_battle_score (analyze_profile ⟨3, 0, 0⟩
        [⟨7, 1, some "Python"⟩, ⟨2, 0, none⟩] [] 0) "technical").total
        = round2 (a + q + i + c) ∧
      (calculate_battle_score (analyze_profile ⟨3, 0, 0⟩
        [⟨7, 1, some "Python"⟩, ⟨2, 0, none⟩] [] 0) "technical").activity
        = round2 a ∧
      (calculate_battle_score (analyze_profile ⟨3, 0, 0⟩
        [⟨7, 1, some "Python"⟩, ⟨2, 0, none⟩] [] 0) "technical").quality
        = round2 q ∧
      (calculate_battle_score (analyze_profile ⟨3, 0, 0⟩
        [⟨7, 1, some "Python"⟩, ⟨2, 0, none⟩] [] 0) "technical").impact
        = round2 i ∧
      (calculate_battle_score (analyze_profile ⟨3, 0, 0⟩
        [⟨7, 1, some "Python"⟩, ⟨2, 0, none⟩] [] 0) "technical").consistency
        = round2 c ∧
      (calculate_battle_score (analyze_profile ⟨3, 0, 0⟩
        [⟨7, 1, some "Python"⟩, ⟨2, 0, none⟩] [] 0) "technical").total ≤ 100) ∧
    calculate_battle_score (analyze_profile ⟨3, 0, 0⟩
        [⟨7, 1, some "Python"⟩, ⟨2, 0, none⟩] [] 0) "technical"
      = calculate_battle_score (analyze_profile ⟨3, 0, 0⟩
        [⟨2, 0, none⟩, ⟨7, 1, some "Python"⟩] [] 0) "technical" :=
  C6_battle_score ⟨3, 0, 0⟩ [⟨7, 1, some "Python"⟩, ⟨2, 0, none⟩]
    [⟨2, 0, none⟩, ⟨7, 1, some "Python"⟩] [] 0 "technical"
    (List.Perm.swap (⟨2, 0, none⟩ : ProfileRepository)
      (⟨7, 1, some "Python"⟩ : ProfileRepository) [])

/-! ### Battle orchestration and routes (battle_service.py, routes/battle.py) -/

structure BattleParticipant where
  username : String
  battle_score : BattleScore
  rank : Nat
deriving DecidableEq

/-- BattleService.conduct_battle after the analyses resolved: failed
analyses are skipped, at least two survivors are required, the survivors
are scored, sorted descending by total (a stable sort, as in CPython)
and given 1-based ranks.  The per-user analysis is abstracted as an
oracle returning none exactly when analyze_profile raised. -/
def conduct_battle (fetch : String → Option ProfileAnalysis)
    (usernames : List String) (battle_type : String) :
    Except String (List BattleParticipant) :=
  let analyses := usernames.filterMap (fun u => (fetch u).map (fun a => (u, a)))
  if analyses.length < 2 then
    .error "At least 2 valid profiles required for battle"
  else
    let participants : List BattleParticipant := analyses.map (fun ua =>
      { username := ua.1
        battle_score := calculate_battle_score ua.2 battle_type
        rank := 0 })
    let sorted := participants.mergeSort
      (fun p q => decide (q.battle_score.total ≤ p.battle_score.total))
    .ok (sorted.enum.map (fun ip => { ip.2 with rank := ip.1 + 1 }))

/-- BattleService.multi_user_battle reduced to its participant list: the
same drop-failures, require-two-survivors, comprehensive scoring and
ranking pipeline; the leaderboard and category winners are derived
per-participant data not needed by the claims. -/
def multi_user_battle_service (fetch : String → Option ProfileAnalysis)
    (usernames : List String) : Except String (List BattleParticipant) :=
  let analyses := usernames.filterMap (fun u => (fetch u).map (fun a => (u, a)))
  if analyses.length < 2 then
    .error "At least 2 valid profiles required for battle"
  else
    let participants : List BattleParticipant := analyses.map (fun ua =>
      { username := ua.1
        battle_score := calculate_battle_score ua.2 "comprehensive"
        rank := 0 })
    let sorted := participants.mergeSort
      (fun p q => decide (q.battle_score.total ≤ p.battle_score.total))
    .ok (sorted.enum.map (fun ip => { ip.2 with rank := ip.1 + 1 }))

/-- An exception escaping a route's try block: either a FastAPI
HTTPException or a Python ValueError. -/
inductive RouteExc where
  | http (status : Nat) (detail : String)
  | valueError (msg : String)
deriving DecidableEq

structure HttpResponse where
  status_code : Nat
  detail : String
deriving DecidableEq

/-- str of a starlette HTTPException: status code, colon, detail. -/
def http_exc_str (status : Nat) (detail : String) : String :=
  toString status ++ ": " ++ detail

/-- The try block of routes/battle.py start_profile_battle.  The
participant-count checks and the token lookup raise HTTPException inside
the try; conduct_battle raises ValueError. -/
def start_profile_battle_try (fetch : String → Option ProfileAnalysis)
    (usernames : List String) (battle_type : String)
    (github_token : Option String) : Except RouteExc (List BattleParticipant) :=
  if usernames.length < 2 then
    .error (.http 400 "At least 2 usernames required")
  else if 5 < usernames.length then
    .error (.http 400 "Maximum 5 users allowed per battle")
  else
    match github_token with
    | none => .error (.http 401 "Authentication required. GitHub token not found.")
    | some _ =>
      match conduct_battle fetch usernames battle_type with
      | .error m => .error (.valueError m)
      | .ok r => .ok r

/-- routes/battle.py start_profile_battle: except ValueError re-raises as
HTTP 400 with the message, while every other exception, including the
HTTPExceptions raised inside the try block, is re-raised as HTTP 500
with the Battle failed prefix around str of the exception. -/
def start_profile_battle (fetch : String → Option ProfileAnalysis)
    (usernames : List String) (battle_type : String)
    (github_token : Option String) : HttpResponse :=
  match start_profile_battle_try fetch usernames battle_type github_token with
  | .ok _ => { status_code := 200, detail := "" }
  | .error (.valueError m) => { status_code := 400, detail := m }
  | .error (.http s d) =>
    { status_code := 500, detail := "Battle failed: " ++ http_exc_str s d }

/-- The full endpoint: FastAPI validates BattleRequest before the handler
runs, and its usernames field carries min_length 2 and max_length 5, so
out-of-range participant counts are answered by the framework with 422
and never reach the route body. -/
def start_profile_battle_endpoint (fetch : String → Option ProfileAnalysis)
    (usernames : List String) (battle_type : String)
    (github_token : Option String) : HttpResponse :=
  if usernames.length < 2 ∨ 5 < usernames.length then
    { status_code := 422, detail := "request validation error" }
  else start_profile_battle fetch usernames battle_type github_token

/-- The try block of routes/battle.py multi_user_battle; the usernames
body parameter has no length constraint, so the in-route bound checks
are reachable. -/
def multi_user_battle_try (fetch : String → Option ProfileAnalysis)
    (usernames : List String) (github_token : Option String) :
    Except RouteExc (List BattleParticipant) :=
  if usernames.length < 2 then
    .error (.http 400 "At least 2 usernames required")
  else if 10 < usernames.length then
    .error (.http 400 "Maximum 10 users allowed per multi-battle")
  else
    match github_token with
    | none => .error (.http 401 "Authentication required. GitHub token not found.")
    | some _ =>
      match multi_user_battle_service fetch usernames with
      | .error m => .error (.valueError m)
      | .ok r => .ok r

/-- routes/battle.py multi_user_battle: same exception wrapping as the
start route, with the Multi-battle failed prefix. -/
def multi_user_battle_route (fetch : String → Option ProfileAnalysis)
    (usernames : List String) (github_token : Option String) : HttpResponse :=
  match multi_user_battle_try fetch usernames github_token with
  | .ok _ => { status_code := 200, detail := "" }
  | .error (.valueError m) => { status_code := 400, detail := m }
  | .error (.http s d) =>
    { status_code := 500, detail := "Multi-battle failed: " ++ http_exc_str s d }

/-- C7: for a battle over usernames a and b where fetching a fails and b
succeeds, the failing subject is dropped, fewer than two survivors
remain, and the battle fails as a ValueError surfaced as HTTP 400 rather
than proceeding with one participant. -/
theorem C7_battle_one_survivor (fetch : String → Option ProfileAnalysis)
    (A : ProfileAnalysis) (battle_type : String) (tok : String)
    (ha : fetch "a" = none) (hb : fetch "b" = some A) :
    start_profile_battle_endpoint fetch ["a", "b"] battle_type (some tok)
      = { status_code := 400
          detail := "At least 2 valid profiles required for battle" } := by
  have hcb : conduct_battle fetch ["a", "b"] battle_type
      = .error "At least 2 valid profiles required for battle" := by
    unfold conduct_battle
    simp [ha, hb]
  unfold start_profile_battle_endpoint start_profile_battle start_profile_battle_try
  simp [hcb]

/-- A concrete profile analysis of an empty account, used to instantiate
the battle route theorems. -/
def emptyAnalysis : ProfileAnalysis := analyze_profile ⟨0, 0, 0⟩ [] [] 0

/-- A fetch oracle that fails for user a and succeeds for user b. -/
def witnessFetch : String → Option ProfileAnalysis :=
  fun u => if u = "b" then some emptyAnalysis else none

/-- Witness for C7 at a concrete fetch oracle. -/
theorem C7_battle_one_survivor_witness :
    start_profile_battle_endpoint witnessFetch ["a", "b"] "comprehensive" (some "t")
      = { status_code := 400
          detail := "At least 2 valid profiles required for battle" } :=
  C7_battle_one_survivor witnessFetch emptyAnalysis "comprehensive" "t"
    (by rfl) (by rfl)

/-- C10: the claim fails on the code.  A multi-battle with one username
hits the in-route 400 check, but that HTTPException is raised inside the
try block and the blanket except re-raises it as HTTP 500; the same
happens above the upper bound.  A start battle with one username never
reaches the route: the request model bounds reject it with HTTP 422.
Neither of the responses is the HTTP 400 the claim states. -/
theorem C10_bounds_not_400 :
    (multi_user_battle_route (fun _ => none) ["a"] (some "t")).status_code = 500 ∧
    (multi_user_battle_route (fun _ => none) ["a"] (some "t")).detail
      = "Multi-battle failed: 400: At least 2 usernames required" ∧
    (multi_user_battle_route (fun _ => none)
      (List.replicate 11 "u") (some "t")).status_code = 500 ∧
    (multi_user_battle_route (fun _ => none)
      (List.replicate 11 "u") (some "t")).detail
      = "Multi-battle failed: 400: Maximum 10 users allowed per multi-battle" ∧
    (start_profile_battle_endpoint (fun _ => none) ["a"] "comprehensive"
      (some "t")).status_code = 422 := by
  refine ⟨rfl, by decide, rfl, by decide, rfl⟩

/-! ### Repository analyzer (repository_analyzer_service.py) -/

/-- An HTTPException as raised by github_base._make_request: every remote
failure kind of the client is mapped to a status code and detail. -/
structure HttpError where
  status_code : Nat
  detail : String
deriving DecidableEq

structure TreeItem where
  path : String
  type : String
  size : Nat
  mode : String
  url : String
deriving DecidableEq

/-- The value get_repository_tree resolves to: the tree list of the
response, the only part the analyzer consumes. -/
structure TreeResp where
  tree : List TreeItem
deriving DecidableEq

structure RepoData where
  default_branch : Option String
deriving DecidableEq

/-- A directory listing entry of the contents API, with the nested
listing of a directory inlined. -/
inductive FsEntry where
  | file (path : String) (size : Nat) (url : String)
  | dir (path : String) (url : String) (children : List FsEntry)

/-- The depth-first walk of _get_tree_from_contents: each entry is
emitted, a directory contributing the walk of its children right after
its own item. -/
def tree_from_contents : List FsEntry → List TreeItem
  | [] => []
  | .file p s u :: rest =>
    { path := p, type := "blob", size := s, mode := "100644", url := u }
      :: tree_from_contents rest
  | .dir p u cs :: rest =>
    { path := p, type := "tree", size := 0, mode := "040000", url := u }
      :: (tree_from_contents cs ++ tree_from_contents rest)

/-- RepositoryAnalyzerService.get_repository_tree: fetch the repository
info for the default branch, then the recursive git tree; on a 404 fall
back to the contents walk, itself yielding the empty tree when it
throws; propagate every other HTTPException. -/
def get_repository_tree (fetch_repo_info : Except HttpError RepoData)
    (fetch_tree : String → Except HttpError TreeResp)
    (contents_walk : Except Unit TreeResp) : Except HttpError TreeResp :=
  match (do
      let repo_data ← fetch_repo_info
      fetch_tree (repo_data.default_branch.getD "main") :
        Except HttpError TreeResp) with
  | .ok t => .ok t
  | .error e =>
    if e.status_code = 404 then
      match contents_walk with
      | .ok t => .ok t
      | .error _ => .ok { tree := [] }
    else .error e

/-- C5: when the primary git-trees path fails with 404 the engine falls
back to the contents walk, yielding the walk result on success and the
empty tree when the walk throws; when the primary path succeeds its tree
is returned unchanged; and for every non-404 error the fallback result
is never consulted and the error propagates. -/
theorem C5_tree_fallback (fetch_repo_info : Except HttpError RepoData)
    (fetch_tree : String → Except HttpError TreeResp) :
    (∀ t, (do
        let repo_data ← fetch_repo_info
        fetch_tree (repo_data.default_branch.getD "main") :
          Except HttpError TreeResp) = .ok t →
      ∀ walk, get_repository_tree fetch_repo_info fetch_tree walk = .ok t) ∧
    (∀ e, (do
        let repo_data ← fetch_repo_info
        fetch_tree (repo_data.default_branch.getD "main") :
          Except HttpError TreeResp) = .error e →
      (e.status_code = 404 →
        (∀ t, get_repository_tree fetch_repo_info fetch_tree (.ok t) = .ok t) ∧
        (∀ u, get_repository_tree fetch_repo_info fetch_tree (.error u)
          = .ok { tree := [] })) ∧
      (e.status_code ≠ 404 →
        ∀ walk, get_repository_tree fetch_repo_info fetch_tree walk = .error e)) := by
  constructor
  · intro t ht walk
    unfold get_repository_tree
    rw [ht]
  · intro e he
    constructor
    · intro h404
      constructor
      · intro t
        unfold get_repository_tree
        rw [he]
        simp [h404]
      · intro u
        unfold get_repository_tree
        rw [he]
        simp [h404]
    · intro hne walk
      unfold get_repository_tree
      rw [he]
      simp [hne]

/-- Witness for C5: a 404 on the repo info fetch with a throwing
contents walk yields the empty tree, per scenario D. -/
theorem C5_tree_fallback_witness :
    (∀ t, (do
        let repo_data ← (Except.error ⟨404, "Resource not found"⟩ :
          Except HttpError RepoData)
        (fun _ => Except.error (⟨404, "Resource not found"⟩ : HttpError))
          (repo_data.default_branch.getD "main") :
          Except HttpError TreeResp) = .ok t →
      ∀ walk, get_repository_tree (Except.error ⟨404, "Resource not found"⟩)
        (fun _ => Except.error ⟨404, "Resource not found"⟩) walk = .ok t) ∧
    (∀ e, (do
        let repo_data ← (Except.error ⟨404, "Resource not found"⟩ :
          Except HttpError RepoData)
        (fun _ => Except.error (⟨404, "Resource not found"⟩ : HttpError))
          (repo_data.default_branch.getD "main") :
          Except HttpError TreeResp) = .error e →
      (e.status_code = 404 →
        (∀ t, get_repository_tree (Except.error ⟨404, "Resource not found"⟩)
          (fun _ => Except.error ⟨404, "Resource not found"⟩) (.ok t) = .ok t) ∧
        (∀ u, get_repository_tree (Except.error ⟨404, "Resource not found"⟩)
          (fun _ => Except.error ⟨404, "Resource not found"⟩) (.error u)
          = .ok { tree := [] })) ∧
      (e.status_code ≠ 404 →
        ∀ walk, get_repository_tree (Except.error ⟨404, "Resource not found"⟩)
          (fun _ => Except.error ⟨404, "Resource not found"⟩) walk = .error e)) :=
  C5_tree_fallback (Except.error ⟨404, "Resource not found"⟩)
    (fun _ => Except.error ⟨404, "Resource not found"⟩)

structure CommitInfo where
  date : Int
deriving DecidableEq

structure Contributor where
  login : String
deriving DecidableEq

structure IssueInfo where
  state : String
  created_at : Int
  closed_at : Option Int
deriving DecidableEq

structure RepoActivityMetrics where
  total_commits : Nat
  recent_commits_30_days : Nat
  commit_frequency : ℚ
  contributor_count : Nat
  issue_resolution_rate : ℚ
  average_issue_resolution_time : Option ℚ
deriving DecidableEq

/-- The date of the oldest fetched commit (Python min with a date key;
only the date is consumed). -/
def oldest_commit_date : List CommitInfo → Int
  | [] => 0
  | c :: cs => cs.foldl (fun acc d => min acc d.date) c.date

/-- Whole days between the creation and closing of an issue, none when
the issue has no close timestamp. -/
def resolution_days (issue : IssueInfo) : Option Int :=
  issue.closed_at.map (fun ca => Int.fdiv (ca - issue.created_at) 86400)

/-- RepositoryAnalyzerService.calculate_activity_metrics.  The final
average field reflects the Python truthiness test: a present but zero
mean is also replaced by none. -/
def repo_calculate_activity_metrics (commits : List CommitInfo)
    (contributors : List Contributor) (issues : List IssueInfo) (now : Int) :
    RepoActivityMetrics :=
  let recent_commits := commits.filter (fun c => decide (now - 30 * 86400 ≤ c.date))
  let commit_frequency : ℚ :=
    if commits.isEmpty then 0
    else
      let days := Int.fdiv (now - oldest_commit_date commits) 86400
      (commits.length : ℚ) / ((if days = 0 then 1 else days : Int) : ℚ)
  let closed_issues := issues.filter (fun i => i.state == "closed")
  let resolution_times := closed_issues.filterMap resolution_days
  let avg_resolution_time : Option ℚ :=
    if resolution_times.isEmpty then none
    else some ((resolution_times.map (fun d => (d : ℚ))).sum / (resolution_times.length : ℚ))
  { total_commits := commits.length
    recent_commits_30_days := recent_commits.length
    commit_frequency := round3 commit_frequency
    contributor_count := contributors.length
    issue_resolution_rate :=
      round2 ((closed_issues.length : ℚ) / (max issues.length 1 : ℚ) * 100)
    average_issue_resolution_time :=
      match avg_resolution_time with
      | some a => if a = 0 then none else some (round2 a)
      | none => none }

/-- C9 counterexample: one closed issue closed the day it was opened has
a close timestamp, so the claim requires the average to be the mean zero,
yet the code maps the zero mean through a truthiness test and yields
null. -/
theorem C9_zero_mean_counterexample :
    (([({ state := "closed", created_at := 0, closed_at := some 0 } :
        IssueInfo)].filter (fun i => i.state == "closed")).filterMap resolution_days
      = [0]) ∧
    (repo_calculate_activity_metrics [] []
      [{ state := "closed", created_at := 0, closed_at := some 0 }]
      86400).average_issue_resolution_time = none := by
  constructor
  · rfl
  · show (if ([(0 : Int)].isEmpty) then (none : Option ℚ)
        else some ((([(0 : Int)].map (fun d => (d : ℚ))).sum / ([(0 : Int)].length : ℚ)))).elim
        none (fun a => if a = 0 then none else some (round2 a)) = none
    norm_num

theorem round2_zero : round2 0 = 0 := by
  norm_num [round2, pyRound]

/-- C9 (amended): the issue resolution rate is closed issues over total
issues as a percentage, zero when there are no issues with no division
error; the average resolution time is the rounded mean in whole days
over closed issues that have a close timestamp, except that the code
also yields null when that mean equals zero, not only when there are no
such issues. -/
theorem C9_issue_metrics (commits : List CommitInfo) (contributors : List Contributor)
    (issues : List IssueInfo) (now : Int) :
    ((repo_calculate_activity_metrics commits contributors issues now).issue_resolution_rate
      = round2 ((((issues.filter (fun i => i.state == "closed")).length : ℚ)
          / (max issues.length 1 : ℚ)) * 100)) ∧
    (issues = [] →
      (repo_calculate_activity_metrics commits contributors issues
        now).issue_resolution_rate = 0 ∧
      (repo_calculate_activity_metrics commits contributors issues
        now).average_issue_resolution_time = none) ∧
    ((issues.filter (fun i => i.state == "closed")).filterMap resolution_days = [] →
      (repo_calculate_activity_metrics commits contributors issues
        now).average_issue_resolution_time = none) ∧
    (∀ mean : ℚ,
      (issues.filter (fun i => i.state == "closed")).filterMap resolution_days ≠ [] →
      mean = (((issues.filter (fun i => i.state == "closed")).filterMap
            resolution_days).map (fun d => (d : ℚ))).sum
          / (((issues.filter (fun i => i.state == "closed")).filterMap
            resolution_days).length : ℚ) →
      (mean = 0 →
        (repo_calculate_activity_metrics commits contributors issues
          now).average_issue_resolution_time = none) ∧
      (mean ≠ 0 →
        (repo_calculate_activity_metrics commits contributors issues
          now).average_issue_resolution_time = some (round2 mean))) := by
  refine ⟨rfl, ?_, ?_, ?_⟩
  · rintro rfl
    constructor
    · show round2 ((((0 : Nat) : ℚ) / (max 0 1 : Nat) : ℚ) * 100) = 0
      norm_num [round2_zero]
    · rfl
  · intro htimes
    show (match (if ((issues.filter (fun i => i.state == "closed")).filterMap
          resolution_days).isEmpty then (none : Option ℚ)
        else some ((((issues.filter (fun i => i.state == "closed")).filterMap
            resolution_days).map (fun d => (d : ℚ))).sum
          / (((issues.filter (fun i => i.state == "closed")).filterMap
            resolution_days).length : ℚ))) with
      | some a => if a = 0 then none else some (round2 a)
      | none => none) = none
    rw [htimes]
    rfl
  · intro mean hne hmean
    have hemp : ((issues.filter (fun i => i.state == "closed")).filterMap
        resolution_days).isEmpty = false := by
      simpa [List.isEmpty_iff] using hne
    have hshow : (repo_calculate_activity_metrics commits contributors issues
        now).average_issue_resolution_time
        = if mean = 0 then none else some (round2 mean) := by
      show (match (if ((issues.filter (fun i => i.state == "closed")).filterMap
            resolution_days).isEmpty then (none : Option ℚ)
          else some ((((issues.filter (fun i => i.state == "closed")).filterMap
              resolution_days).map (fun d => (d : ℚ))).sum
            / (((issues.filter (fun i => i.state == "closed")).filterMap
              resolution_days).length : ℚ))) with
        | some a => if a = 0 then none else some (round2 a)
        | none => none) = if mean = 0 then none else some (round2 mean)
      rw [hemp, ← hmean]
      rfl
    constructor
    · intro h0
      rw [hshow, if_pos h0]
    · intro h0
      rw [hshow, if_neg h0]

/-- Witness for C9 at a repository with zero issues, per scenario E. -/
theorem C9_issue_metrics_witness :
    (repo_calculate_activity_metrics [] [] [] 0).issue_resolution_rate = 0 ∧
    (repo_calculate_activity_metrics [] [] [] 0).average_issue_resolution_time = none :=
  (C9_issue_metrics [] [] [] 0).2.1 rfl

/-! ### Repository pagination (profile_analyzer_service.get_repositories)

The while loop requests page after page of size 100 until a page comes
back empty or shorter than 100.  The pages the remote would serve are an
oracle from page number to repository list; the fuel argument bounds the
number of iterations modelled, none standing for a run that has not
terminated within the fuel. -/

def getRepositoriesLoop (pages : Nat → List ProfileRepository) :
    Nat → Nat → Option (List ProfileRepository)
  | 0, _ => none
  | fuel + 1, page =>
    if (pages page).isEmpty then some []
    else if (pages page).length < 100 then some (pages page)
    else
      match getRepositoriesLoop pages fuel (page + 1) with
      | some rest => some (pages page ++ rest)
      | none => none

/-- ProfileAnalyzerService.get_repositories: the loop starts at page 1
and accumulates every fetched page. -/
def get_repositories (pages : Nat → List ProfileRepository) (fuel : Nat) :
    Option (List ProfileRepository) :=
  getRepositoriesLoop pages fuel 1

theorem getRepositoriesLoop_spec (pages : Nat → List ProfileRepository) :
    ∀ (fuel page k0 : Nat), page ≤ k0 → (pages k0).length < 100 →
      (∀ j, page ≤ j → j < k0 → 100 ≤ (pages j).length) →
      k0 - page < fuel →
      getRepositoriesLoop pages fuel page
        = some (((List.range' page (k0 - page + 1)).map pages).flatten) := by
  intro fuel
  induction fuel with
  | zero => intro page k0 _ _ _ hlt; omega
  | succ n ih =>
    intro page k0 hpk hshort hfull hlt
    by_cases heq : page = k0
    · subst heq
      have hz : page - page = 0 := by omega
      rw [hz]
      by_cases hempty : (pages page).isEmpty
      · have hnil : pages page = [] := List.isEmpty_iff.mp hempty
        simp [getRepositoriesLoop, hempty, List.range', hnil]
      · simp [getRepositoriesLoop, hempty, hshort, List.range']
    · have hlt' : page < k0 := by omega
      have h100 := hfull page le_rfl hlt'
      have hne : (pages page).isEmpty = false := by
        rcases hp : pages page with _ | ⟨x, xs⟩
        · rw [hp] at h100; simp at h100
        · simp
      have hnotlt : ¬ (pages page).length < 100 := by omega
      have hrec := ih (page + 1) k0 (by omega) hshort
        (fun j hj1 hj2 => hfull j (by omega) hj2) (by omega)
      have hn : k0 - page + 1 = (k0 - (page + 1) + 1) + 1 := by omega
      rw [hn]
      simp only [getRepositoriesLoop, hne, Bool.false_eq_true, if_false, hnotlt, hrec,
        List.range'_succ, List.map_cons, List.flatten_cons]

/-- C8: for every user whose repository feed eventually serves a page
shorter than the page size 100, pagination stops at the first such page
(an empty page included) and returns the concatenation of every page
fetched up to and including it; the result is reached within any fuel
bound of at least that page number, so the loop never runs forever on a
short final page or on zero results. -/
theorem C8_pagination (pages : Nat → List ProfileRepository) (k : Nat)
    (hk : 1 ≤ k) (hshort : (pages k).length < 100) :
    ∃ k0, 1 ≤ k0 ∧ k0 ≤ k ∧ (pages k0).length < 100 ∧
      (∀ j, 1 ≤ j → j < k0 → 100 ≤ (pages j).length) ∧
      ∀ fuel, k ≤ fuel →
        get_repositories pages fuel
          = some (((List.range' 1 k0).map pages).flatten) := by
  have hex : ∃ m, 1 ≤ m ∧ (pages m).length < 100 := ⟨k, hk, hshort⟩
  refine ⟨Nat.find hex, (Nat.find_spec hex).1, Nat.find_le ⟨hk, hshort⟩,
    (Nat.find_spec hex).2, ?_, ?_⟩
  · intro j h1 h2
    have hmin := Nat.find_min hex h2
    omega
  · intro fuel hfuel
    have hk0 := Nat.find_spec hex
    have hle : Nat.find hex ≤ k := Nat.find_le ⟨hk, hshort⟩
    have hspec := getRepositoriesLoop_spec pages fuel 1 (Nat.find hex) hk0.1 hk0.2
      (fun j hj1 hj2 => by
        have hmin := Nat.find_min hex hj2
        omega)
      (by omega)
    have harith : Nat.find hex - 1 + 1 = Nat.find hex := by omega
    rw [harith] at hspec
    exact hspec

/-- Witness for C8: a feed whose first page is already empty terminates
at once with the empty repository list. -/
theorem C8_pagination_witness :
    ∃ k0, 1 ≤ k0 ∧ k0 ≤ 1 ∧
      ((fun _ => ([] : List ProfileRepository)) k0).length < 100 ∧
      (∀ j, 1 ≤ j → j < k0 →
        100 ≤ ((fun _ => ([] : List ProfileRepository)) j).length) ∧
      ∀ fuel, 1 ≤ fuel →
        get_repositories (fun _ => ([] : List ProfileRepository)) fuel
          = some (((List.range' 1 k0).map
              (fun _ => ([] : List ProfileRepository))).flatten) :=
  C8_pagination (fun _ => ([] : List ProfileRepository)) 1 (by decide) (by decide)

end GitSphere
